import Mathlib

/-!
Verification development for the Zeus matching pipeline.

The Python source (src/matching/matcher.py, src/utils/ner_extractor.py,
src/utils/geo_utils.py) is shallowly embedded below.  Scores are modelled
with rationals (every IEEE float is a rational); the geographic decay
formula, which uses the real exponential, is modelled over the reals.
String handling mirrors Python semantics: lowercasing, NFD-decomposition
followed by dropping combining marks (realised as a direct character map
on the French repertoire appearing in the program), substring tests
(the empty string is a substring of everything, as in Python), and
whitespace splitting.
-/

namespace Zeus

/-- Tests whether the first character list is a leading segment of the second. -/
def startsWithCh : List Char → List Char → Bool
  | [], _ => true
  | _ :: _, [] => false
  | a :: as, b :: bs => a == b && startsWithCh as bs

/-- Tests whether the first character list occurs contiguously inside the second,
mirroring the Python `in` operator on strings (the empty needle always matches). -/
def subAux (n : List Char) : List Char → Bool
  | [] => n.isEmpty
  | c :: t => startsWithCh n (c :: t) || subAux n t

/-- Python `needle in hay` on strings. -/
def strHas (needle hay : String) : Bool :=
  subAux needle.data hay.data

/-- Python `str.lower` restricted to the character repertoire used by the
program: ASCII letters plus the accented French uppercase letters. -/
def pyLowerChar (c : Char) : Char :=
  if c = 'À' then 'à' else if c = 'Â' then 'â' else if c = 'Ä' then 'ä'
  else if c = 'É' then 'é' else if c = 'È' then 'è' else if c = 'Ê' then 'ê'
  else if c = 'Ë' then 'ë' else if c = 'Î' then 'î' else if c = 'Ï' then 'ï'
  else if c = 'Ô' then 'ô' else if c = 'Ö' then 'ö' else if c = 'Ù' then 'ù'
  else if c = 'Û' then 'û' else if c = 'Ü' then 'ü' else if c = 'Ç' then 'ç'
  else c.toLower

/-- Python `str.lower`. -/
def pyLower (s : String) : String :=
  ⟨s.data.map pyLowerChar⟩

/-- Unicode NFD decomposition followed by removal of combining marks
(`unicodedata.category(c) == Mn`), realised as a direct base-character map on
the precomposed French letters occurring in the string tables of the program. -/
def stripAccentChar (c : Char) : Char :=
  if c = 'à' ∨ c = 'â' ∨ c = 'ä' then 'a'
  else if c = 'é' ∨ c = 'è' ∨ c = 'ê' ∨ c = 'ë' then 'e'
  else if c = 'î' ∨ c = 'ï' then 'i'
  else if c = 'ô' ∨ c = 'ö' then 'o'
  else if c = 'ù' ∨ c = 'û' ∨ c = 'ü' then 'u'
  else if c = 'ç' then 'c'
  else c

/-- Accent stripping on full strings (NFD normalize + drop Mn marks). -/
def stripAccents (s : String) : String :=
  ⟨s.data.map stripAccentChar⟩

/-- Python truthiness of an optional string: `None` and the empty string are falsy. -/
def truthyStr : Option String → Bool
  | none => false
  | some s => !s.data.isEmpty

/-- Splits a character list at every character satisfying `p`, keeping empty pieces. -/
def splitChAux (p : Char → Bool) (cur : List Char) : List Char → List (List Char)
  | [] => [cur.reverse]
  | c :: t => if p c then cur.reverse :: splitChAux p [] t else splitChAux p (c :: cur) t

/-- Python `str.split()` with no argument: split on whitespace runs, no empty pieces. -/
def pySplitWs (s : String) : List String :=
  ((splitChAux (fun c => c.isWhitespace) [] s.data).filter (fun w => !w.isEmpty)).map
    (fun w => String.mk w)

/-- Python `str.split(",")`: split at every comma, keeping empty pieces. -/
def pySplitComma (s : String) : List String :=
  (splitChAux (fun c => c = ',') [] s.data).map (fun w => String.mk w)

/-- Python `str.strip()`: drop leading and trailing whitespace. -/
def pyStrip (s : String) : String :=
  String.mk ((((s.data.dropWhile Char.isWhitespace).reverse).dropWhile Char.isWhitespace).reverse)

example : strHas "ecole" "periscolaires" = false := by decide

example : strHas "" "abc" = true := by decide

example : stripAccents (pyLower "École") = "ecole" := by decide

/-- A provider row of the catalog (columns Nom_Entreprise, Domaines_Expertise,
Disponibilite, Ville); `none` models a missing (NaN) cell. -/
structure Provider where
  Nom_Entreprise : String
  Domaines_Expertise : Option String
  Disponibilite : Option String
  Ville : Option String
deriving DecidableEq

/-- The REQUIRED_KEYWORDS table of `_filter_by_domain_relevance`, in Python
dict-literal order.  The source writes the key "réparation urgente" twice;
Python keeps the first position with the last value (the automotive list),
which is what this list records. -/
def REQUIRED_KEYWORDS : List (String × List String) :=
  [ ("garde d\x27enfant", ["garde", "enfant", "famille", "babysitting", "crèche", "nounou"]),
    ("crèche ou nounou", ["garde", "enfant", "famille", "crèche", "nounou"]),
    ("scolarité", ["famille", "scolarité", "éducation", "école"]),
    ("activités périscolaires", ["famille", "loisirs", "sport", "activités", "enfant"]),
    ("aide aux devoirs", ["famille", "éducation", "soutien", "scolaire"]),
    ("garde animaux", ["animaux", "garde", "pension", "chien", "chat"]),
    ("plomberie urgente", ["plomberie", "travaux", "urgence", "dépannage"]),
    ("électroménager", ["électroménager", "réparation", "dépannage"]),
    ("réparation urgente", ["garage", "auto", "véhicule", "réparation", "dépannage", "mécanique", "automobile", "panne"]),
    ("mise en conformité logement", ["travaux", "électricité", "conformité"]),
    ("rénovation avant vente", ["travaux", "rénovation"]),
    ("installation fibre", ["travaux", "installation", "internet", "télécom"]),
    ("contrôle technique", ["véhicule", "auto", "contrôle", "technique", "automobile"]),
    ("location courte durée", ["location", "véhicule", "auto", "voiture", "automobile"]),
    ("achat véhicule", ["véhicule", "auto", "vente", "occasion", "automobile", "voiture"]),
    ("reprogrammation moteur", ["véhicule", "auto", "garage", "mécanique", "moteur"]),
    ("location meublée", ["logement", "location", "immobilier", "appartement", "meublé", "habitation"]),
    ("recherche colocation", ["logement", "colocation", "location", "appartement", "colocataire"]),
    ("recherche logement social", ["logement", "location", "immobilier", "social", "hlm"]),
    ("déménagement", ["déménagement", "transport", "logistique", "demenage", "déménageur"]),
    ("stockage temporaire", ["stockage", "garde-meuble", "entreposage", "box"]),
    ("état des lieux", ["logement", "immobilier", "huissier", "juridique", "état", "constat"]),
    ("construction maison retraite", ["construction", "immobilier", "bâtiment", "maison", "promoteur"]),
    ("prêt immobilier", ["banque", "finance", "crédit", "prêt", "immobilier"]),
    ("prêt travaux", ["banque", "finance", "crédit", "prêt"]),
    ("regroupement crédits", ["banque", "finance", "crédit"]),
    ("placement financier", ["finance", "banque", "épargne", "investissement", "placement"]),
    ("assurance habitation", ["assurance", "habitation", "logement"]),
    ("assurance auto jeune conducteur", ["assurance", "auto", "véhicule"]),
    ("mutuelle santé", ["assurance", "mutuelle", "santé"]),
    ("prévoyance", ["assurance", "prévoyance"]),
    ("carte grise", ["administratif", "carte", "véhicule", "démarches"]),
    ("passeport express", ["administratif", "passeport", "démarches", "papiers"]),
    ("titre de séjour conjoint", ["administratif", "démarches", "juridique"]),
    ("changement situation familiale", ["administratif", "juridique", "démarches"]),
    ("dentiste d\x27urgence", ["santé", "dentiste", "dentaire", "urgence"]),
    ("kiné urgence", ["santé", "kiné", "kinésithérapie", "rééducation"]),
    ("ophtalmologue", ["santé", "ophtalmologue", "vision", "lunettes"]),
    ("accompagnement familial", ["santé", "psychologue", "accompagnement", "famille"]),
    ("gestion stress opérationnel", ["santé", "psychologue", "stress", "accompagnement"]),
    ("recherche emploi conjoint", ["emploi", "travail", "recrutement", "job"]),
    ("reconversion professionnelle", ["formation", "reconversion", "emploi"]),
    ("bilan de compétences", ["emploi", "formation", "bilan", "orientation"]),
    ("aide à la création entreprise", ["entreprise", "création", "conseil", "accompagnement"]),
    ("préparation retraite", ["retraite", "conseil", "finance", "accompagnement"]),
    ("permis poids lourd", ["formation", "permis", "conduite"]),
    ("langue étrangère", ["formation", "langue", "cours", "apprentissage"]),
    ("transport express", ["transport", "livraison", "coursier", "urgence"]),
    ("coiffure", ["coiffure", "beauté", "esthétique"]),
    ("pressing express", ["pressing", "nettoyage", "blanchisserie"]) ]

/-- The INCOMPATIBLE_DOMAINS table of `_filter_by_domain_relevance`. -/
def INCOMPATIBLE_DOMAINS : List (String × List String) :=
  [ ("location", ["électri", "électro", "plomb", "garage", "mécan", "contrôle", "véhicule", "auto", "dépann", "répara", "travaux"]),
    ("colocation", ["électri", "électro", "plomb", "garage", "véhicule", "auto", "travaux", "dépann", "répara"]),
    ("logement", ["électri", "électro", "plomb", "garage", "véhicule", "auto", "mécan", "dépann", "répara"]),
    ("meublée", ["électri", "électro", "plomb", "garage", "véhicule", "auto", "dépann", "travaux"]),
    ("immobilier", ["électri", "électro", "plomb", "garage", "véhicule", "auto", "dépann", "répara"]),
    ("garde", ["électri", "électro", "plomb", "garage", "véhicule", "auto", "travaux", "construction", "dépann", "répara"]),
    ("enfant", ["électri", "électro", "plomb", "garage", "véhicule", "auto", "travaux", "dépann", "répara"]),
    ("scolarité", ["électri", "électro", "plomb", "garage", "véhicule", "auto", "travaux", "stockage", "entrepo"]),
    ("école", ["électri", "électro", "plomb", "garage", "véhicule", "auto", "stockage", "travaux"]),
    ("véhicule", ["logement", "location", "colocation", "garde", "enfant", "crèche", "nounou", "stockage", "immobilier"]),
    ("auto", ["logement", "location", "colocation", "garde", "enfant", "crèche", "stockage", "immobilier"]),
    ("panne", ["logement", "location", "garde", "enfant", "stockage", "immobilier"]),
    ("réparation", ["logement", "location", "garde", "stockage", "immobilier", "banque"]),
    ("garage", ["logement", "location", "colocation", "garde", "enfant", "immobilier"]),
    ("prêt", ["électri", "électro", "plomb", "garage", "véhicule", "mécan", "travaux", "dépann"]),
    ("crédit", ["électri", "électro", "plomb", "garage", "véhicule", "mécan", "dépann"]),
    ("banque", ["électri", "électro", "plomb", "garage", "véhicule", "travaux", "dépann"]),
    ("plomberie", ["logement", "location", "garde", "enfant", "banque", "finance", "assurance", "immobilier"]),
    ("électricité", ["logement", "location", "garde", "enfant", "banque", "finance", "assurance", "immobilier"]) ]

/-- The STRICT_CATEGORIES list of `_filter_by_domain_relevance` (ÉTAPE 4). -/
def STRICT_CATEGORIES : List String :=
  ["location", "logement", "colocation", "scolarite", "ecole", "pret", "credit", "banque"]

/-- Normalized request sub-category (`sous_cat_normalized` in the source):
lowercase, accents stripped; missing or empty maps to the empty string. -/
def normSub (sous_categorie : Option String) : String :=
  stripAccents (pyLower (sous_categorie.getD ""))

/-- Fallback keyword derivation: words of length strictly more than 4
from a whitespace split, lowercased. -/
def wordsOver4 (s : String) : List String :=
  ((pySplitWs s).filter (fun m => 4 < m.data.length)).map pyLower

/-- ÉTAPE 2 of `_filter_by_domain_relevance`: the required keyword set adopted
for the request.  The first table key matching the normalized sub-category as a
substring in either direction wins (the Python loop breaks); otherwise keywords
are derived from sub-category words, then category words.  Returned deduplicated,
modelling the Python set. -/
def required_keywords_for (categorie sous_categorie : Option String) : List String :=
  let sn := normSub sous_categorie
  match REQUIRED_KEYWORDS.find? (fun kv =>
      strHas (stripAccents kv.fst) sn || strHas sn (stripAccents kv.fst)) with
  | some kv => kv.snd.dedup
  | none =>
      let k1 := if truthyStr sous_categorie then wordsOver4 (sous_categorie.getD "") else []
      if k1.isEmpty then
        (if truthyStr categorie then wordsOver4 (categorie.getD "") else []).dedup
      else k1.dedup

/-- ÉTAPE 3: union of the exclusion lists of every INCOMPATIBLE_DOMAINS key
whose normalized form occurs in the normalized sub-category. -/
def exclusions_for (sous_categorie : Option String) : List String :=
  ((INCOMPATIBLE_DOMAINS.filter (fun kv =>
      strHas (stripAccents kv.fst) (normSub sous_categorie))).map (fun kv => kv.snd)).flatten

/-- ÉTAPE 4: number of required keywords a provider must exhibit. -/
def min_keyword_matches (sous_categorie : Option String) : ℕ :=
  if STRICT_CATEGORIES.any (fun c => strHas c (normSub sous_categorie)) then 2 else 1

/-- ÉTAPE 5 inner predicate `is_domain_compatible` of the source: a missing
expertise cell fails; any exclusion occurring as a substring of the lowercased
expertise blocks; otherwise at least `minK` distinct required keywords must occur. -/
def is_domain_compatible (keywords exclusions : List String) (minK : ℕ)
    (domaines : Option String) : Bool :=
  match domaines with
  | none => false
  | some d =>
      let dl := pyLower d
      if exclusions.any (fun e => strHas e dl) then false
      else decide (minK ≤ (keywords.filter (fun k => strHas k dl)).length)

/-- The whole `_filter_by_domain_relevance`: with an empty keyword set every
provider is returned, otherwise the catalog is filtered by `is_domain_compatible`. -/
def filter_by_domain_relevance (providers : List Provider)
    (categorie sous_categorie : Option String) : List Provider :=
  let keywords := required_keywords_for categorie sous_categorie
  if keywords.isEmpty then providers
  else providers.filter (fun p =>
    is_domain_compatible keywords (exclusions_for sous_categorie)
      (min_keyword_matches sous_categorie) p.Domaines_Expertise)

/-- Candidate selection of `find_matches` (lines 104-122): the domain filter
runs only when requested and when a category or sub-category is truthy, and an
empty filter result is bypassed in favour of the whole catalog. -/
def select_candidates (providers : List Provider) (apply_domain_filter : Bool)
    (categorie sous_categorie : Option String) : List Provider :=
  if apply_domain_filter && (truthyStr categorie || truthyStr sous_categorie) then
    let filtered := filter_by_domain_relevance providers categorie sous_categorie
    if filtered.isEmpty then providers else filtered
  else providers

example :
    required_keywords_for none (some "école") = ["école"] ∧
    min_keyword_matches (some "école") = 2 := by decide

/-- A result row of `find_matches`, carrying the score columns the pipeline
creates.  `geo_score` and `urgency_boost` are optional because the
corresponding DataFrame columns are only created when their stage runs. -/
structure MatchRow where
  provider : Provider
  similarity_score_base : ℚ
  geo_score : Option ℚ
  urgency_boost : Option ℚ
  specialization_factor : ℚ
  similarity_score : ℚ
  confidence : Option String
deriving DecidableEq

/-- Fallible filter over a list, propagating the first raised exception,
modelling `DataFrame.apply` of a predicate that can raise. -/
def filterE {α : Type} (f : α → Except String Bool) : List α → Except String (List α)
  | [] => .ok []
  | a :: t =>
      match f a with
      | .error e => .error e
      | .ok b =>
          match filterE f t with
          | .error e => .error e
          | .ok r => .ok (if b then a :: r else r)

/-- Fallible map over a list, propagating the first raised exception. -/
def mapE {α β : Type} (f : α → Except String β) : List α → Except String (List β)
  | [] => .ok []
  | a :: t =>
      match f a with
      | .error e => .error e
      | .ok b =>
          match mapE f t with
          | .error e => .error e
          | .ok r => .ok (b :: r)

/-- NERExtractor.is_compatible_disponibilite.  The source lowercases
`prestataire_dispo` before any constraint test, so a missing (NaN) availability
raises an AttributeError regardless of the constraint; the `Except` error
models that exception. -/
def is_compatible_disponibilite (prestataire_dispo : Option String)
    (contrainte_dispo : String) : Except String Bool :=
  match prestataire_dispo with
  | none => .error "AttributeError: float object has no attribute lower"
  | some d =>
      let pl := pyLower d
      .ok (if contrainte_dispo = "ALL" then true
        else if contrainte_dispo = "24/7" then
          strHas "24/7" pl || strHas "urgence" pl
        else if contrainte_dispo = "RAPIDE" then
          strHas "24/7" pl || strHas "urgence" pl || strHas "rapide" pl ||
            strHas "samedi" pl || strHas "en ligne" pl
        else true)

/-- Stage `_apply_ner_filtering`: when the availability constraint is not ALL,
keep only rows whose provider availability is compatible. -/
def apply_ner_filtering (contrainte_dispo : String) (rows : List MatchRow) :
    Except String (List MatchRow) :=
  if contrainte_dispo ≠ "ALL" then
    filterE (fun r => is_compatible_disponibilite r.provider.Disponibilite contrainte_dispo) rows
  else .ok rows

/-- The ADAPTIVE_WEIGHTS table with its `.get` default of (0.7, 0.3). -/
def ADAPTIVE_WEIGHTS (impact_geo : ℕ) : ℚ × ℚ :=
  if impact_geo = 0 then (1, 0)
  else if impact_geo = 1 then (65/100, 35/100)
  else if impact_geo = 2 then (45/100, 55/100)
  else (7/10, 3/10)

/-- Stage `_apply_adaptive_scoring`: when a city was detected in the need, blend
the semantic score with a geographic score obtained from `geo` (the embedded
`calculate_geo_score`, abstracted as an oracle which may raise); otherwise set
the geo column to 1.0 and reset the score to the base semantic score. -/
def apply_adaptive_scoring (geo : String → Option String → ℕ → Except String ℚ)
    (ville_besoin : Option String) (impact_geo : ℕ) (rows : List MatchRow) :
    Except String (List MatchRow) :=
  let w := ADAPTIVE_WEIGHTS impact_geo
  if truthyStr ville_besoin then
    mapE (fun r =>
      match geo (ville_besoin.getD "") r.provider.Ville impact_geo with
      | .error e => .error e
      | .ok g =>
          .ok { r with
            geo_score := some g,
            similarity_score := w.fst * r.similarity_score_base + w.snd * g }) rows
  else
    .ok (rows.map (fun r =>
      { r with geo_score := some 1, similarity_score := r.similarity_score_base }))

/-- The availability test of `calc_urgency_boost`: contains "24/7" or "urgence"
after lowercasing. -/
def dispo_urgence_flag (d : String) : Bool :=
  strHas "24/7" (pyLower d) || strHas "urgence" (pyLower d)

/-- The inner `calc_urgency_boost` of `_apply_urgency_boost`: a missing
availability is guarded (`pd.isna`) and yields factor 1. -/
def calc_urgency_boost (dispo : Option String) : ℚ :=
  match dispo with
  | none => 1
  | some d => if dispo_urgence_flag d then 23/20 else 1

/-- Stage `_apply_urgency_boost`: for IMMEDIATE needs, multiply by the urgency
factor and clip the score at 1.0 from above. -/
def apply_urgency_boost (urgence : String) (rows : List MatchRow) : List MatchRow :=
  if urgence = "IMMEDIATE" then
    rows.map (fun r =>
      let f := calc_urgency_boost r.provider.Disponibilite
      { r with urgency_boost := some f, similarity_score := min (r.similarity_score * f) 1 })
  else rows

/-- Number of comma-separated non-empty expertise tokens (`nb_domaines`). -/
def nb_domaines (d : String) : ℕ :=
  (((pySplitComma d).map pyStrip).filter (fun t => !t.data.isEmpty)).length

/-- The inner `calc_specialization_penalty` of `_penalize_generic_providers`:
count comma-separated non-empty expertise tokens. -/
def calc_specialization_penalty (domaines : Option String) : ℚ :=
  match domaines with
  | none => 19/20
  | some d =>
      let nb := nb_domaines d
      if 6 ≤ nb then 17/20 else if 5 ≤ nb then 9/10 else if 4 ≤ nb then 19/20 else 1

/-- Stage `_penalize_generic_providers`. -/
def penalize_generic_providers (rows : List MatchRow) : List MatchRow :=
  rows.map (fun r =>
    let f := calc_specialization_penalty r.provider.Domaines_Expertise
    { r with specialization_factor := f, similarity_score := r.similarity_score * f })

/-- The inner `amplify_score` of `_amplify_score_gap`. -/
def amplify_score (score : ℚ) : ℚ :=
  if 7/10 ≤ score then min (score * (5/4)) 1
  else if 6/10 ≤ score then score * (23/20)
  else if 1/2 ≤ score then score * (11/10)
  else if 45/100 ≤ score then score * (21/20)
  else if 35/100 ≤ score then score
  else if 3/10 ≤ score then score * (17/20)
  else score * (7/10)

/-- Stage `_amplify_score_gap`: amplify, then clip into [0, 1].  (The column
`similarity_score_before_amplify` the source also records is not part of any
claim and is not modelled.) -/
def amplify_score_gap (rows : List MatchRow) : List MatchRow :=
  rows.map (fun r =>
    { r with similarity_score := max 0 (min (amplify_score r.similarity_score) 1) })

/-- Descending insertion of a row into a list, by `similarity_score`. -/
def insertDesc (a : MatchRow) : List MatchRow → List MatchRow
  | [] => [a]
  | b :: t =>
      if b.similarity_score < a.similarity_score then a :: b :: t
      else b :: insertDesc a t

/-- Descending sort by `similarity_score`, modelling `sort_values(ascending=False)`
(the default pandas quicksort fixes no tie order, so any comparison sort is faithful). -/
def sortDesc : List MatchRow → List MatchRow
  | [] => []
  | a :: t => insertDesc a (sortDesc t)

/-- Stage `_filter_secondary_ranks`: sort descending, then keep rows scoring at
least 70 percent of the top score and at least the 0.30 absolute floor. -/
def filter_secondary_ranks (rows : List MatchRow) : List MatchRow :=
  match sortDesc rows with
  | [] => []
  | top :: rest =>
      (top :: rest).filter (fun r =>
        decide (top.similarity_score * (7/10) ≤ r.similarity_score) &&
        decide ((3/10 : ℚ) ≤ r.similarity_score))

/-- The absolute-threshold step of `find_matches` (lines 158-160): keep rows
scoring at least `max threshold 0.10`. -/
def threshold_filter (threshold : ℚ) (rows : List MatchRow) : List MatchRow :=
  rows.filter (fun r => decide (max threshold (1/10) ≤ r.similarity_score))

/-- Stage `_apply_adaptive_top_k`: keep 3 results when the top score is at
least 0.85, 2 when at least 0.70, and 1 otherwise, capped by `max_k`. -/
def apply_adaptive_top_k (max_k : ℕ) (rows : List MatchRow) : List MatchRow :=
  match rows with
  | [] => []
  | top :: _ =>
      let optimal_k : ℕ :=
        if 85/100 ≤ top.similarity_score then 3
        else if 7/10 ≤ top.similarity_score then 2
        else 1
      rows.take (min optimal_k max_k)

/-- The inner `get_confidence_label` of `_add_confidence_labels`.  The source
returns the unaccented strings written here. -/
def get_confidence_label (score : ℚ) : String :=
  if 85/100 ≤ score then "Tres pertinent"
  else if 7/10 ≤ score then "Pertinent"
  else if 1/2 ≤ score then "Approchant"
  else "A verifier"

/-- Stage `_add_confidence_labels`. -/
def add_confidence_labels (rows : List MatchRow) : List MatchRow :=
  rows.map (fun r => { r with confidence := some (get_confidence_label r.similarity_score) })

/-- The pure tail of `find_matches` (lines 149-167), in the order of the source:
specialization penalty, amplification, secondary-rank filter, absolute
threshold, adaptive top-K (capped at `min top_k 3`), confidence labels. -/
def pipeline_tail (threshold : ℚ) (top_k : ℕ) (rows : List MatchRow) : List MatchRow :=
  add_confidence_labels (apply_adaptive_top_k (min top_k 3)
    (threshold_filter threshold (filter_secondary_ranks
      (amplify_score_gap (penalize_generic_providers rows)))))

/-- Modelled from the spec (design note, §9): the same tail with the adaptive
top-K applied before the absolute-threshold step, as the ordering claim of the spec
describes.  Used only to compare orderings. -/
def pipeline_tail_spec_order (threshold : ℚ) (top_k : ℕ) (rows : List MatchRow) :
    List MatchRow :=
  add_confidence_labels (threshold_filter threshold
    (apply_adaptive_top_k (min top_k 3) (filter_secondary_ranks
      (amplify_score_gap (penalize_generic_providers rows)))))

/-- A fresh result row: both score columns start at the cosine similarity of
the request with this provider (`sim`, the embedding backend abstracted). -/
def init_row (sim : Provider → ℚ) (p : Provider) : MatchRow :=
  { provider := p, similarity_score_base := sim p, geo_score := none,
    urgency_boost := none, specialization_factor := 1,
    similarity_score := sim p, confidence := none }

/-- ProviderMatcher.find_matches.  `sim` abstracts the cosine similarity of the
encoded request against one provider; `geo` abstracts
`NERExtractor.calculate_geo_score`; `ville_besoin`, `contrainte_dispo` and
`urgence` are the extracted NER entities; `use_ner` covers the
`self.use_ner and ner_entities` guard.  Errors model escaped exceptions. -/
def find_matches (sim : Provider → ℚ) (geo : String → Option String → ℕ → Except String ℚ)
    (providers : List Provider) (apply_domain_filter use_ner : Bool)
    (categorie sous_categorie ville_besoin : Option String)
    (contrainte_dispo urgence : String) (impact_geo top_k : ℕ) (threshold : ℚ) :
    Except String (List MatchRow) :=
  let candidates := select_candidates providers apply_domain_filter categorie sous_categorie
  let rows0 := candidates.map (init_row sim)
  match (if use_ner then apply_ner_filtering contrainte_dispo rows0 else .ok rows0) with
  | .error e => .error e
  | .ok rows1 =>
      match (if use_ner then apply_adaptive_scoring geo ville_besoin impact_geo rows1
             else .ok rows1) with
      | .error e => .error e
      | .ok rows2 =>
          let rows3 := if use_ner then apply_urgency_boost urgence rows2 else rows2
          .ok (pipeline_tail threshold top_k rows3)

/-- Modelled from the spec (design note, §9): `find_matches` with the
spec-order tail, used only to compare the two stage orderings. -/
def find_matches_spec_order (sim : Provider → ℚ)
    (geo : String → Option String → ℕ → Except String ℚ)
    (providers : List Provider) (apply_domain_filter use_ner : Bool)
    (categorie sous_categorie ville_besoin : Option String)
    (contrainte_dispo urgence : String) (impact_geo top_k : ℕ) (threshold : ℚ) :
    Except String (List MatchRow) :=
  let candidates := select_candidates providers apply_domain_filter categorie sous_categorie
  let rows0 := candidates.map (init_row sim)
  match (if use_ner then apply_ner_filtering contrainte_dispo rows0 else .ok rows0) with
  | .error e => .error e
  | .ok rows1 =>
      match (if use_ner then apply_adaptive_scoring geo ville_besoin impact_geo rows1
             else .ok rows1) with
      | .error e => .error e
      | .ok rows2 =>
          let rows3 := if use_ner then apply_urgency_boost urgence rows2 else rows2
          .ok (pipeline_tail_spec_order threshold top_k rows3)

/-- City normalization used by the same-city test of `calculate_geo_score`:
`.lower().strip()`. -/
def normCity (s : String) : String := pyStrip (pyLower s)

/-- The exponential decay `exp(-alpha * distance)` of `calculate_geo_score`. -/
noncomputable def geo_decay (alpha distance_km : ℝ) : ℝ :=
  Real.exp (-(alpha * distance_km))

/-- The body of `calculate_geo_score` after validation, for a fixed nonzero
`alpha`: missing or empty need city gives 0.8; identical normalized cities give
1.0; unknown distance gives 0.7; otherwise exponential decay.  `dist` abstracts
`get_distance_entre_villes` (geopy geodesic, or the Haversine fallback;
`none` when the distance cannot be computed). -/
noncomputable def geo_score_core (dist : String → String → Option ℝ)
    (ville_besoin : Option String) (ville_prestataire : String) (alpha : ℝ) : ℝ :=
  match ville_besoin with
  | none => 8/10
  | some v =>
      if v.data.isEmpty then 8/10
      else if normCity v = normCity ville_prestataire then 1
      else
        match dist v ville_prestataire with
        | none => 7/10
        | some d => geo_decay alpha d

/-- NERExtractor.calculate_geo_score: validate `impact_geo`, resolve alpha
(0, 0.015, 0.05), return 1.0 when alpha is zero, otherwise the core case
analysis.  The error models the `ValueError` raised for an invalid
`impact_geo`. -/
noncomputable def calculate_geo_score (dist : String → String → Option ℝ)
    (ville_besoin : Option String) (ville_prestataire : String) (impact_geo : ℕ) :
    Except String ℝ :=
  match impact_geo with
  | 0 => .ok 1
  | 1 => .ok (geo_score_core dist ville_besoin ville_prestataire (15/1000))
  | 2 => .ok (geo_score_core dist ville_besoin ville_prestataire (5/100))
  | _ => .error "ValueError: impact_geo doit etre 0, 1 ou 2"

/-- Descending order on result rows: the second row scores no more than the first. -/
def score_ge (a b : MatchRow) : Prop :=
  b.similarity_score ≤ a.similarity_score

/-- Strictly descending order on result rows. -/
def score_gt (a b : MatchRow) : Prop :=
  b.similarity_score < a.similarity_score

theorem mem_insertDesc {a b : MatchRow} {l : List MatchRow} :
    b ∈ insertDesc a l ↔ b = a ∨ b ∈ l := by
  induction l with
  | nil => simp [insertDesc]
  | cons c t ih =>
      unfold insertDesc
      split
      · simp [List.mem_cons]
      · simp [List.mem_cons, ih]
        tauto

theorem pairwise_insertDesc {a : MatchRow} {l : List MatchRow}
    (h : l.Pairwise score_ge) : (insertDesc a l).Pairwise score_ge := by
  induction l with
  | nil => simp [insertDesc]
  | cons c t ih =>
      rcases List.pairwise_cons.mp h with ⟨hc, ht⟩
      unfold insertDesc
      split
      · refine List.pairwise_cons.mpr ⟨?_, h⟩
        intro x hx
        rcases List.mem_cons.mp hx with rfl | hx
        · exact le_of_lt (by assumption)
        · exact le_trans (hc x hx) (le_of_lt (by assumption))
      · refine List.pairwise_cons.mpr ⟨?_, ih ht⟩
        intro x hx
        rcases mem_insertDesc.mp hx with rfl | hx
        · exact not_lt.mp (by assumption)
        · exact hc x hx

theorem sortDesc_pairwise : ∀ l : List MatchRow, (sortDesc l).Pairwise score_ge
  | [] => List.Pairwise.nil
  | a :: t => pairwise_insertDesc (sortDesc_pairwise t)

theorem mem_sortDesc {a : MatchRow} : ∀ {l : List MatchRow}, a ∈ sortDesc l ↔ a ∈ l
  | [] => Iff.rfl
  | b :: t => by
      unfold sortDesc
      rw [mem_insertDesc, List.mem_cons, mem_sortDesc]

theorem filter_secondary_ranks_pairwise (rows : List MatchRow) :
    (filter_secondary_ranks rows).Pairwise score_ge := by
  unfold filter_secondary_ranks
  cases h : sortDesc rows with
  | nil => exact List.Pairwise.nil
  | cons top rest =>
      have := sortDesc_pairwise rows
      rw [h] at this
      exact this.filter _

theorem threshold_filter_pairwise {thr : ℚ} {rows : List MatchRow}
    (h : rows.Pairwise score_ge) : (threshold_filter thr rows).Pairwise score_ge :=
  h.filter _

theorem apply_adaptive_top_k_pairwise {k : ℕ} {rows : List MatchRow}
    (h : rows.Pairwise score_ge) : (apply_adaptive_top_k k rows).Pairwise score_ge := by
  unfold apply_adaptive_top_k
  cases rows with
  | nil => exact List.Pairwise.nil
  | cons top rest => exact List.Pairwise.sublist (List.take_sublist _ _) h

theorem add_confidence_labels_pairwise {rows : List MatchRow}
    (h : rows.Pairwise score_ge) : (add_confidence_labels rows).Pairwise score_ge := by
  unfold add_confidence_labels
  rw [List.pairwise_map]
  exact h

theorem apply_adaptive_top_k_length (k : ℕ) (rows : List MatchRow) :
    (apply_adaptive_top_k k rows).length ≤ k := by
  unfold apply_adaptive_top_k
  cases rows with
  | nil => simp
  | cons top rest =>
      calc (List.take _ (top :: rest)).length ≤ _ := List.length_take_le _ _
        _ ≤ k := min_le_right _ _

theorem add_confidence_labels_length (rows : List MatchRow) :
    (add_confidence_labels rows).length = rows.length := by
  unfold add_confidence_labels
  exact List.length_map _ _

/-- The pure tail of `find_matches` always yields a weakly descending list of at
most three rows. -/
theorem pipeline_tail_sorted_short (thr : ℚ) (top_k : ℕ) (rows : List MatchRow) :
    (pipeline_tail thr top_k rows).Pairwise score_ge ∧
      (pipeline_tail thr top_k rows).length ≤ 3 := by
  unfold pipeline_tail
  constructor
  · exact add_confidence_labels_pairwise (apply_adaptive_top_k_pairwise
      (threshold_filter_pairwise (filter_secondary_ranks_pairwise _)))
  · rw [add_confidence_labels_length]
    calc (apply_adaptive_top_k (min top_k 3) _).length ≤ min top_k 3 :=
          apply_adaptive_top_k_length _ _
      _ ≤ 3 := min_le_right _ _

/-- Inversion for `find_matches`: a successful run is the pure tail of some
intermediate row list. -/
theorem find_matches_ok_inv {sim : Provider → ℚ}
    {geo : String → Option String → ℕ → Except String ℚ}
    {providers : List Provider} {apply_domain_filter use_ner : Bool}
    {categorie sous_categorie ville_besoin : Option String}
    {contrainte_dispo urgence : String} {impact_geo top_k : ℕ} {threshold : ℚ}
    {rows : List MatchRow}
    (h : find_matches sim geo providers apply_domain_filter use_ner categorie
      sous_categorie ville_besoin contrainte_dispo urgence impact_geo top_k threshold
      = .ok rows) :
    ∃ rows3, rows = pipeline_tail threshold top_k rows3 := by
  simp only [find_matches] at h
  rcases hx : (if use_ner then
      apply_ner_filtering contrainte_dispo
        ((select_candidates providers apply_domain_filter categorie
          sous_categorie).map (init_row sim))
    else .ok ((select_candidates providers apply_domain_filter categorie
          sous_categorie).map (init_row sim))) with e | rows1
  · rw [hx] at h
    exact absurd h (by simp)
  · rw [hx] at h
    simp only [] at h
    rcases hy : (if use_ner then apply_adaptive_scoring geo ville_besoin impact_geo rows1
        else .ok rows1) with e | rows2
    · rw [hy] at h
      exact absurd h (by simp)
    · rw [hy] at h
      simp only [] at h
      refine ⟨if use_ner then apply_urgency_boost urgence rows2 else rows2, ?_⟩
      exact (Except.ok.inj h).symm

/-- Claim C1, as amended: every successful result of `find_matches` is sorted
weakly descending by final score (ties are possible, so only weak descent
holds) and contains at most three rows. -/
theorem find_matches_sorted_and_short (sim : Provider → ℚ)
    (geo : String → Option String → ℕ → Except String ℚ)
    (providers : List Provider) (apply_domain_filter use_ner : Bool)
    (categorie sous_categorie ville_besoin : Option String)
    (contrainte_dispo urgence : String) (impact_geo top_k : ℕ) (threshold : ℚ)
    (rows : List MatchRow)
    (h : find_matches sim geo providers apply_domain_filter use_ner categorie
      sous_categorie ville_besoin contrainte_dispo urgence impact_geo top_k threshold
      = .ok rows) :
    rows.Pairwise score_ge ∧ rows.length ≤ 3 := by
  rcases find_matches_ok_inv h with ⟨rows3, rfl⟩
  exact pipeline_tail_sorted_short _ _ _

/-- A provider with a single expertise token and weekday availability. -/
def prov_expert_A : Provider :=
  { Nom_Entreprise := "A", Domaines_Expertise := some "expert",
    Disponibilite := some "semaine", Ville := none }

/-- A second provider identical to `prov_expert_A` except for its name. -/
def prov_expert_B : Provider :=
  { Nom_Entreprise := "B", Domaines_Expertise := some "expert",
    Disponibilite := some "semaine", Ville := none }

/-- Score column of a `find_matches` result (empty on error). -/
def scores_of (e : Except String (List MatchRow)) : List ℚ :=
  match e with
  | .ok l => l.map (fun r => r.similarity_score)
  | .error _ => []

/-- Confidence column of a `find_matches` result (empty on error). -/
def confidences_of (e : Except String (List MatchRow)) : List (Option String) :=
  match e with
  | .ok l => l.map (fun r => r.confidence)
  | .error _ => []

/-- Urgency-boost column of a `find_matches` result (empty on error). -/
def urgencies_of (e : Except String (List MatchRow)) : List (Option ℚ) :=
  match e with
  | .ok l => l.map (fun r => r.urgency_boost)
  | .error _ => []

/-- The row produced for either twin provider in the tie run: base cosine 0.9,
amplified and clipped to a final score of 1. -/
def tie_row (p : Provider) : MatchRow :=
  { provider := p, similarity_score_base := 9/10, geo_score := none,
    urgency_boost := none, specialization_factor := 1, similarity_score := 1,
    confidence := some "Tres pertinent" }

/-- Claim C1, counterexample: two providers with identical cosine scores both
reach the result with identical final scores, so the returned list is not
strictly descending (it is only weakly descending). -/
theorem find_matches_strict_descending_counterexample :
    find_matches (fun _ => 9/10) (fun _ _ _ => .ok 1) [prov_expert_A, prov_expert_B]
        false false none none none "ALL" "STANDARD" 1 5 (3/10)
      = .ok [tie_row prov_expert_B, tie_row prov_expert_A] ∧
    ¬ ([tie_row prov_expert_B, tie_row prov_expert_A].Pairwise score_gt) := by
  constructor
  · have h1 : nb_domaines "expert" = 1 := by decide
    norm_num [find_matches, select_candidates, init_row, pipeline_tail,
      penalize_generic_providers, calc_specialization_penalty, h1,
      amplify_score_gap, amplify_score, filter_secondary_ranks, sortDesc,
      insertDesc, threshold_filter, apply_adaptive_top_k, add_confidence_labels,
      get_confidence_label, List.filter_cons, prov_expert_A, prov_expert_B, tie_row]
  · intro h
    rcases List.pairwise_cons.mp h with ⟨hlt, _⟩
    have := hlt (tie_row prov_expert_A) (List.mem_singleton_self _)
    simp only [score_gt, tie_row] at this
    exact absurd this (lt_irrefl _)

/-- A lone provider used for witness runs. -/
def prov_expert_C : Provider :=
  { Nom_Entreprise := "C", Domaines_Expertise := some "expert",
    Disponibilite := some "semaine", Ville := none }

/-- The single row returned by the witness run: base cosine 0.5, amplified
by 10 percent to 0.55, labelled "Approchant". -/
def wit_row : MatchRow :=
  { provider := prov_expert_C, similarity_score_base := 1/2, geo_score := none,
    urgency_boost := none, specialization_factor := 1, similarity_score := 11/20,
    confidence := some "Approchant" }

/-- Witness for the amended C1 theorem at a concrete successful run. -/
theorem find_matches_sorted_and_short_witness :
    ([wit_row].Pairwise score_ge) ∧ ([wit_row] : List MatchRow).length ≤ 3 :=
  find_matches_sorted_and_short (fun _ => 1/2) (fun _ _ _ => .ok 1) [prov_expert_C]
    false false none none none "ALL" "STANDARD" 1 5 (3/10) [wit_row] (by
      have h1 : nb_domaines "expert" = 1 := by decide
      norm_num [find_matches, select_candidates, init_row, pipeline_tail,
        penalize_generic_providers, calc_specialization_penalty, h1,
        amplify_score_gap, amplify_score, filter_secondary_ranks, sortDesc,
        insertDesc, threshold_filter, apply_adaptive_top_k, add_confidence_labels,
        get_confidence_label, List.filter_cons, prov_expert_C, wit_row])

theorem filter_eq_takeWhile_of_pairwise (m : ℚ) :
    ∀ (l : List MatchRow), l.Pairwise score_ge →
      l.filter (fun r => decide (m ≤ r.similarity_score)) =
        l.takeWhile (fun r => decide (m ≤ r.similarity_score)) := by
  intro l
  induction l with
  | nil => intro _; rfl
  | cons a t ih =>
      intro h
      rcases List.pairwise_cons.mp h with ⟨ha, ht⟩
      by_cases hm : m ≤ a.similarity_score
      · simp [List.filter_cons, List.takeWhile_cons, hm, ih ht]
      · have hfa : (decide (m ≤ a.similarity_score)) = false := by simp [hm]
        rw [List.filter_cons, List.takeWhile_cons, hfa]
        simp only [Bool.false_eq_true, if_false]
        rw [List.filter_eq_nil_iff]
        intro x hx
        simp only [decide_eq_true_eq]
        intro hmx
        exact hm (le_trans hmx (ha x hx))

theorem takeWhile_take_comm {α : Type} (p : α → Bool) :
    ∀ (n : ℕ) (l : List α), (l.takeWhile p).take n = (l.take n).takeWhile p := by
  intro n l
  induction l generalizing n with
  | nil => simp
  | cons a t ih =>
      cases n with
      | zero => simp
      | succ n =>
          by_cases hp : p a
          · simp [List.takeWhile_cons, hp, List.take_succ_cons, ih]
          · simp [List.takeWhile_cons, hp]

/-- On the (sorted) output of the secondary-rank filter, running the adaptive
top-K after the absolute threshold gives the same list as running it before:
the two stages commute there. -/
theorem topk_threshold_comm (thr : ℚ) (k : ℕ) (rows : List MatchRow) :
    apply_adaptive_top_k k (threshold_filter thr (filter_secondary_ranks rows)) =
      threshold_filter thr (apply_adaptive_top_k k (filter_secondary_ranks rows)) := by
  have hs := filter_secondary_ranks_pairwise rows
  generalize filter_secondary_ranks rows = S at hs ⊢
  cases S with
  | nil => rfl
  | cons top rest =>
      rcases List.pairwise_cons.mp hs with ⟨htop, hrest⟩
      by_cases hm : max thr (1/10) ≤ top.similarity_score
      · have hd : (decide (max thr (1/10) ≤ top.similarity_score)) = true :=
          decide_eq_true hm
        have hfc : threshold_filter thr (top :: rest) =
            top :: threshold_filter thr rest := by
          show (top :: rest).filter _ = top :: rest.filter _
          exact List.filter_cons_of_pos hd
        rw [hfc]
        unfold apply_adaptive_top_k
        simp only []
        generalize min (if (85/100 : ℚ) ≤ top.similarity_score then 3
          else if (7/10 : ℚ) ≤ top.similarity_score then 2 else 1) k = K
        cases K with
        | zero => simp [threshold_filter]
        | succ n =>
            rw [List.take_succ_cons, List.take_succ_cons]
            have hrc : threshold_filter thr (top :: rest.take n) =
                top :: threshold_filter thr (rest.take n) := by
              show (top :: rest.take n).filter _ = top :: (rest.take n).filter _
              exact List.filter_cons_of_pos hd
            rw [hrc]
            congr 1
            have h1 : threshold_filter thr rest =
                rest.takeWhile (fun r => decide (max thr (1/10) ≤ r.similarity_score)) :=
              filter_eq_takeWhile_of_pairwise _ rest hrest
            have h2 : threshold_filter thr (rest.take n) =
                (rest.take n).takeWhile
                  (fun r => decide (max thr (1/10) ≤ r.similarity_score)) :=
              filter_eq_takeWhile_of_pairwise _ (rest.take n)
                (hrest.sublist (List.take_sublist _ _))
            rw [h1, h2, takeWhile_take_comm]
      · have hfc : threshold_filter thr (top :: rest) = [] := by
          unfold threshold_filter
          rw [List.filter_eq_nil_iff]
          intro x hx
          simp only [decide_eq_true_eq]
          intro hmx
          rcases List.mem_cons.mp hx with rfl | hx
          · exact hm hmx
          · exact hm (le_trans hmx (htop x hx))
        rw [hfc]
        unfold apply_adaptive_top_k
        simp only []
        have hsub : List.Sublist
            (((top :: rest).take (min (if (85/100 : ℚ) ≤ top.similarity_score then 3
              else if (7/10 : ℚ) ≤ top.similarity_score then 2 else 1) k)).filter
                (fun r => decide (max thr (1/10) ≤ r.similarity_score)))
            ((top :: rest).filter
              (fun r => decide (max thr (1/10) ≤ r.similarity_score))) :=
          (List.take_sublist _ _).filter _
        have hnil : (top :: rest).filter
            (fun r => decide (max thr (1/10) ≤ r.similarity_score)) = [] := hfc
        rw [hnil] at hsub
        exact (List.sublist_nil.mp hsub).symm

/-- Claim C3: the source applies the secondary-rank filter before the absolute
threshold, and although the adaptive top-K is written after the threshold step,
`find_matches` computes exactly the function in which both the secondary-rank
filter and the adaptive top-K precede the absolute threshold (the two stages
commute on the sorted intermediate list), for every input. -/
theorem find_matches_order_equiv (sim : Provider → ℚ)
    (geo : String → Option String → ℕ → Except String ℚ)
    (providers : List Provider) (apply_domain_filter use_ner : Bool)
    (categorie sous_categorie ville_besoin : Option String)
    (contrainte_dispo urgence : String) (impact_geo top_k : ℕ) (threshold : ℚ) :
    find_matches sim geo providers apply_domain_filter use_ner categorie
        sous_categorie ville_besoin contrainte_dispo urgence impact_geo top_k threshold
      = find_matches_spec_order sim geo providers apply_domain_filter use_ner categorie
        sous_categorie ville_besoin contrainte_dispo urgence impact_geo top_k threshold := by
  have htail : ∀ rows, pipeline_tail threshold top_k rows =
      pipeline_tail_spec_order threshold top_k rows := by
    intro rows
    unfold pipeline_tail pipeline_tail_spec_order
    rw [topk_threshold_comm]
  unfold find_matches find_matches_spec_order
  simp only [htail]

theorem mem_add_confidence_labels {r : MatchRow} {rows : List MatchRow}
    (h : r ∈ add_confidence_labels rows) :
    r.confidence = some (get_confidence_label r.similarity_score) := by
  unfold add_confidence_labels at h
  rcases List.mem_map.mp h with ⟨r0, _, rfl⟩
  rfl

/-- Claim C2, as amended: every returned row carries a confidence label that is
the pure threshold function of its final score, with the same thresholds the
claim states, but the label vocabulary of the code is the unaccented
{"Tres pertinent", "Pertinent", "Approchant", "A verifier"}. -/
theorem find_matches_confidence_labels (sim : Provider → ℚ)
    (geo : String → Option String → ℕ → Except String ℚ)
    (providers : List Provider) (apply_domain_filter use_ner : Bool)
    (categorie sous_categorie ville_besoin : Option String)
    (contrainte_dispo urgence : String) (impact_geo top_k : ℕ) (threshold : ℚ)
    (rows : List MatchRow)
    (h : find_matches sim geo providers apply_domain_filter use_ner categorie
      sous_categorie ville_besoin contrainte_dispo urgence impact_geo top_k threshold
      = .ok rows) :
    (∀ r ∈ rows, r.confidence = some (get_confidence_label r.similarity_score) ∧
      get_confidence_label r.similarity_score ∈
        (["Tres pertinent", "Pertinent", "Approchant", "A verifier"] : List String)) ∧
    (∀ s : ℚ,
      (85/100 ≤ s → get_confidence_label s = "Tres pertinent") ∧
      (7/10 ≤ s → ¬ (85/100 ≤ s) → get_confidence_label s = "Pertinent") ∧
      (1/2 ≤ s → ¬ (7/10 ≤ s) → get_confidence_label s = "Approchant") ∧
      (¬ (1/2 ≤ s) → get_confidence_label s = "A verifier")) := by
  constructor
  · intro r hr
    rcases find_matches_ok_inv h with ⟨rows3, rfl⟩
    refine ⟨mem_add_confidence_labels hr, ?_⟩
    unfold get_confidence_label
    split_ifs <;> simp
  · intro s
    refine ⟨?_, ?_, ?_, ?_⟩ <;> unfold get_confidence_label <;>
      split_ifs <;> intros <;> first | rfl | (exfalso; linarith)

/-- A lone provider used for the label-vocabulary counterexample run. -/
def prov_expert_D : Provider :=
  { Nom_Entreprise := "D", Domaines_Expertise := some "expert",
    Disponibilite := some "semaine", Ville := none }

/-- Claim C2, counterexample: a returned row whose label is the unaccented
"Tres pertinent", which is not in the accented vocabulary the claim names. -/
theorem get_confidence_label_vocabulary_counterexample :
    confidences_of (find_matches (fun _ => 9/10) (fun _ _ _ => .ok 1) [prov_expert_D]
        false false none none none "ALL" "STANDARD" 1 5 (3/10))
      = [some "Tres pertinent"] ∧
    ("Tres pertinent" : String) ∉
      (["Très pertinent", "Pertinent", "Approchant", "À vérifier"] : List String) := by
  constructor
  · have h1 : nb_domaines "expert" = 1 := by decide
    norm_num [confidences_of, find_matches, select_candidates, init_row, pipeline_tail,
      penalize_generic_providers, calc_specialization_penalty, h1,
      amplify_score_gap, amplify_score, filter_secondary_ranks, sortDesc,
      insertDesc, threshold_filter, apply_adaptive_top_k, add_confidence_labels,
      get_confidence_label, List.filter_cons, prov_expert_D]
  · decide

/-- Witness for the amended C2 theorem at a concrete successful run. -/
theorem find_matches_confidence_labels_witness :
    wit_row.confidence = some (get_confidence_label wit_row.similarity_score) ∧
    get_confidence_label wit_row.similarity_score ∈
      (["Tres pertinent", "Pertinent", "Approchant", "A verifier"] : List String) :=
  (find_matches_confidence_labels (fun _ => 1/2) (fun _ _ _ => .ok 1) [prov_expert_C]
    false false none none none "ALL" "STANDARD" 1 5 (3/10) [wit_row] (by
      have h1 : nb_domaines "expert" = 1 := by decide
      norm_num [find_matches, select_candidates, init_row, pipeline_tail,
        penalize_generic_providers, calc_specialization_penalty, h1,
        amplify_score_gap, amplify_score, filter_secondary_ranks, sortDesc,
        insertDesc, threshold_filter, apply_adaptive_top_k, add_confidence_labels,
        get_confidence_label, List.filter_cons, prov_expert_C, wit_row])).1
    wit_row (List.mem_singleton_self _)

set_option maxHeartbeats 1600000 in
/-- Claim C6: `amplify_score` follows the seven-piece rule of the spec, is
monotone non-decreasing on [0, 1], and maps [0, 1] into [0, 1]. -/
theorem amplify_score_spec :
    (∀ s : ℚ,
      (7/10 ≤ s → amplify_score s = min (s * (5/4)) 1) ∧
      (6/10 ≤ s → s < 7/10 → amplify_score s = s * (23/20)) ∧
      (1/2 ≤ s → s < 6/10 → amplify_score s = s * (11/10)) ∧
      (45/100 ≤ s → s < 1/2 → amplify_score s = s * (21/20)) ∧
      (35/100 ≤ s → s < 45/100 → amplify_score s = s) ∧
      (3/10 ≤ s → s < 35/100 → amplify_score s = s * (17/20)) ∧
      (s < 3/10 → amplify_score s = s * (7/10))) ∧
    (∀ s t : ℚ, 0 ≤ s → s ≤ t → t ≤ 1 → amplify_score s ≤ amplify_score t) ∧
    (∀ s : ℚ, 0 ≤ s → s ≤ 1 → 0 ≤ amplify_score s ∧ amplify_score s ≤ 1) := by
  refine ⟨?_, ?_, ?_⟩
  · intro s
    refine ⟨?_, ?_, ?_, ?_, ?_, ?_, ?_⟩ <;> intros <;> unfold amplify_score <;>
      split_ifs <;> first | rfl | linarith
  · intro s t hs hst ht
    unfold amplify_score
    split_ifs <;>
      first
        | linarith
        | (exact min_le_min (by linarith) le_rfl)
        | (refine le_min (by linarith) (by linarith))
  · intro s h0 h1
    unfold amplify_score
    constructor <;> split_ifs <;>
      first
        | linarith
        | (exact le_min (by linarith) (by linarith))
        | (exact le_trans (min_le_right _ _) (by norm_num))

/-- Witness for C6 at concrete scores inside the unit interval. -/
theorem amplify_score_spec_witness :
    amplify_score (1/2 : ℚ) ≤ amplify_score (3/4) ∧
    (0 ≤ amplify_score (1/2 : ℚ) ∧ amplify_score (1/2 : ℚ) ≤ 1) :=
  ⟨amplify_score_spec.2.1 (1/2) (3/4) (by norm_num) (by norm_num) (by norm_num),
   amplify_score_spec.2.2 (1/2) (by norm_num) (by norm_num)⟩

theorem geo_score_core_bounds (dist : String → String → Option ℝ)
    (hd : ∀ a b d, dist a b = some d → 0 ≤ d)
    (vb : Option String) (vp : String) (alpha : ℝ) (ha : 0 ≤ alpha) :
    0 ≤ geo_score_core dist vb vp alpha ∧ geo_score_core dist vb vp alpha ≤ 1 := by
  unfold geo_score_core
  cases vb with
  | none => norm_num
  | some v =>
      by_cases he : v.data.isEmpty
      · simp only [he, if_true]
        norm_num
      · simp only [he, Bool.false_eq_true, if_false]
        by_cases hc : normCity v = normCity vp
        · simp only [hc, if_true]
          norm_num
        · simp only [hc, if_false]
          cases hdist : dist v vp with
          | none => norm_num
          | some d =>
              unfold geo_decay
              constructor
              · exact (Real.exp_pos _).le
              · rw [Real.exp_le_one_iff]
                have hdn := hd v vp d hdist
                have : 0 ≤ alpha * d := mul_nonneg ha hdn
                linarith

/-- Claim C5: the geo score is 1.0 for impact 0 regardless of cities; for
impact 1 or 2 it is 0.8 when the need city is missing, 1.0 for equal
normalized cities, 0.7 for an unknown distance, and exp(-alpha*d) otherwise
with alpha 0.015 resp. 0.05; every produced score lies in [0, 1] (given
nonnegative distances), and the score is non-increasing in the distance. -/
theorem calculate_geo_score_spec (dist : String → String → Option ℝ)
    (hd : ∀ a b d, dist a b = some d → 0 ≤ d) :
    (∀ vb vp, calculate_geo_score dist vb vp 0 = .ok 1) ∧
    (∀ vp i, i = 1 ∨ i = 2 → calculate_geo_score dist none vp i = .ok (8/10)) ∧
    (∀ v vp i, i = 1 ∨ i = 2 → v.data.isEmpty = false → normCity v = normCity vp →
      calculate_geo_score dist (some v) vp i = .ok 1) ∧
    (∀ v vp i, i = 1 ∨ i = 2 → v.data.isEmpty = false → normCity v ≠ normCity vp →
      dist v vp = none → calculate_geo_score dist (some v) vp i = .ok (7/10)) ∧
    (∀ v vp d, v.data.isEmpty = false → normCity v ≠ normCity vp → dist v vp = some d →
      calculate_geo_score dist (some v) vp 1 = .ok (Real.exp (-((15/1000) * d))) ∧
      calculate_geo_score dist (some v) vp 2 = .ok (Real.exp (-((5/100) * d)))) ∧
    (∀ vb vp i r, calculate_geo_score dist vb vp i = .ok r → 0 ≤ r ∧ r ≤ 1) ∧
    (∀ (dist1 dist2 : String → String → Option ℝ) (v vp : String) (i : ℕ)
        (d1 d2 : ℝ) (r1 r2 : ℝ), i = 1 ∨ i = 2 →
      dist1 v vp = some d1 → dist2 v vp = some d2 → 0 ≤ d1 → d1 ≤ d2 →
      v.data.isEmpty = false → normCity v ≠ normCity vp →
      calculate_geo_score dist1 (some v) vp i = .ok r1 →
      calculate_geo_score dist2 (some v) vp i = .ok r2 →
      r2 ≤ r1) := by
  refine ⟨?_, ?_, ?_, ?_, ?_, ?_, ?_⟩
  · intro vb vp
    rfl
  · intro vp i hi
    rcases hi with rfl | rfl <;> rfl
  · intro v vp i hi he hc
    rcases hi with rfl | rfl <;>
      simp [calculate_geo_score, geo_score_core, he, hc]
  · intro v vp i hi he hc hdist
    rcases hi with rfl | rfl <;>
      simp [calculate_geo_score, geo_score_core, he, hc, hdist]
  · intro v vp d he hc hdist
    constructor <;> simp [calculate_geo_score, geo_score_core, he, hc, hdist, geo_decay]
  · intro vb vp i r hr
    match i, hr with
    | 0, hr =>
        have : r = 1 := by
          simpa [calculate_geo_score] using hr.symm
        subst this
        norm_num
    | 1, hr =>
        have : r = geo_score_core dist vb vp (15/1000) := by
          simpa [calculate_geo_score] using hr.symm
        subst this
        exact geo_score_core_bounds dist hd vb vp _ (by norm_num)
    | 2, hr =>
        have : r = geo_score_core dist vb vp (5/100) := by
          simpa [calculate_geo_score] using hr.symm
        subst this
        exact geo_score_core_bounds dist hd vb vp _ (by norm_num)
    | (n + 3), hr => exact absurd hr (by simp [calculate_geo_score])
  · intro dist1 dist2 v vp i d1 d2 r1 r2 hi h1 h2 hd1 hd12 he hc hr1 hr2
    have halpha : ∀ alpha : ℝ, 0 ≤ alpha →
        Real.exp (-(alpha * d2)) ≤ Real.exp (-(alpha * d1)) := by
      intro alpha ha
      rw [Real.exp_le_exp]
      have := mul_le_mul_of_nonneg_left hd12 ha
      linarith
    rcases hi with rfl | rfl
    · have e1 : r1 = Real.exp (-((15/1000) * d1)) := by
        simpa [calculate_geo_score, geo_score_core, he, hc, h1, geo_decay] using hr1.symm
      have e2 : r2 = Real.exp (-((15/1000) * d2)) := by
        simpa [calculate_geo_score, geo_score_core, he, hc, h2, geo_decay] using hr2.symm
      rw [e1, e2]
      exact halpha _ (by norm_num)
    · have e1 : r1 = Real.exp (-((5/100) * d1)) := by
        simpa [calculate_geo_score, geo_score_core, he, hc, h1, geo_decay] using hr1.symm
      have e2 : r2 = Real.exp (-((5/100) * d2)) := by
        simpa [calculate_geo_score, geo_score_core, he, hc, h2, geo_decay] using hr2.symm
      rw [e1, e2]
      exact halpha _ (by norm_num)

/-- Witness for C5: the distance oracle that never answers, at concrete cities
hitting the impact-0, missing-city, same-city and unknown-distance branches. -/
theorem calculate_geo_score_spec_witness :
    calculate_geo_score (fun _ _ => none) (some "Paris") "Lyon" 1 = .ok (7/10) ∧
    calculate_geo_score (fun _ _ => none) none "Lyon" 2 = .ok (8/10) ∧
    calculate_geo_score (fun _ _ => none) (some "Paris") "paris " 1 = .ok 1 ∧
    calculate_geo_score (fun _ _ => none) (some "Paris") "Lyon" 0 = .ok 1 := by
  have h := calculate_geo_score_spec (fun _ _ => none) (by intro a b d hd; cases hd)
  exact ⟨h.2.2.2.1 "Paris" "Lyon" 1 (Or.inl rfl) (by decide) (by decide) rfl,
         h.2.1 "Lyon" 2 (Or.inr rfl),
         h.2.2.1 "Paris" "paris " 1 (Or.inl rfl) (by decide) (by decide),
         h.1 (some "Paris") "Lyon"⟩

/-- Claim C7: when the domain filter is requested, applicable, and yields zero
providers, `find_matches` proceeds exactly as if the filter had been disabled:
it runs against the full provider catalog and returns normally rather than
failing.  (The bypass also prints a diagnostic, which has no observable
counterpart in this embedding.) -/
theorem find_matches_filter_bypass (sim : Provider → ℚ)
    (geo : String → Option String → ℕ → Except String ℚ)
    (providers : List Provider) (use_ner : Bool)
    (categorie sous_categorie ville_besoin : Option String)
    (contrainte_dispo urgence : String) (impact_geo top_k : ℕ) (threshold : ℚ)
    (htruthy : (truthyStr categorie || truthyStr sous_categorie) = true)
    (hempty : filter_by_domain_relevance providers categorie sous_categorie = []) :
    find_matches sim geo providers true use_ner categorie sous_categorie
        ville_besoin contrainte_dispo urgence impact_geo top_k threshold
      = find_matches sim geo providers false use_ner categorie sous_categorie
        ville_besoin contrainte_dispo urgence impact_geo top_k threshold := by
  have hsel : select_candidates providers true categorie sous_categorie = providers := by
    unfold select_candidates
    simp [htruthy, hempty]
  have hsel2 : select_candidates providers false categorie sous_categorie = providers := by
    simp [select_candidates]
  unfold find_matches
  rw [hsel, hsel2]

/-- A provider whose expertise cannot match the nonsense sub-category used by
the C7 witness. -/
def prov_plomberie : Provider :=
  { Nom_Entreprise := "P", Domaines_Expertise := some "plomberie",
    Disponibilite := some "semaine", Ville := none }

/-- Witness for C7: a sub-category matching no provider, so the filter comes
back empty and the run equals the unfiltered run. -/
theorem find_matches_filter_bypass_witness :
    find_matches (fun _ => 1/2) (fun _ _ _ => .ok 1) [prov_plomberie] true false
        none (some "zzzzz") none "ALL" "STANDARD" 1 5 (3/10)
      = find_matches (fun _ => 1/2) (fun _ _ _ => .ok 1) [prov_plomberie] false false
        none (some "zzzzz") none "ALL" "STANDARD" 1 5 (3/10) :=
  find_matches_filter_bypass (fun _ => 1/2) (fun _ _ _ => .ok 1) [prov_plomberie] false
    none (some "zzzzz") none "ALL" "STANDARD" 1 5 (3/10) (by decide) (by decide)

/-- Claim C10: the compatibility predicate rejects a missing expertise cell
outright, so whenever the domain filter genuinely runs (keywords were derived)
and comes back non-empty, every candidate retained by `find_matches` has a
present expertise string. -/
theorem domain_filter_excludes_missing_expertise :
    (∀ (keywords exclusions : List String) (minK : ℕ),
      is_domain_compatible keywords exclusions minK none = false) ∧
    (∀ (providers : List Provider) (categorie sous_categorie : Option String)
        (p : Provider),
      required_keywords_for categorie sous_categorie ≠ [] →
      filter_by_domain_relevance providers categorie sous_categorie ≠ [] →
      (truthyStr categorie || truthyStr sous_categorie) = true →
      p ∈ select_candidates providers true categorie sous_categorie →
      p.Domaines_Expertise ≠ none) := by
  constructor
  · intro keywords exclusions minK
    rfl
  · intro providers categorie sous_categorie p hk hne htruthy hp
    unfold select_candidates at hp
    simp only [htruthy, Bool.true_and, if_true] at hp
    rw [if_neg (by simp [List.isEmpty_iff, hne])] at hp
    unfold filter_by_domain_relevance at hp
    rw [if_neg (by simp [List.isEmpty_iff, hk])] at hp
    have hcomp := (List.mem_filter.mp hp).2
    intro hnone
    rw [hnone] at hcomp
    exact absurd hcomp (by simp [is_domain_compatible])

/-- A provider with a missing (NaN) expertise cell. -/
def prov_missing_expertise : Provider :=
  { Nom_Entreprise := "N", Domaines_Expertise := none,
    Disponibilite := some "semaine", Ville := none }

/-- A moving company provider matching the "déménagement" keyword set. -/
def prov_demenageur : Provider :=
  { Nom_Entreprise := "M", Domaines_Expertise := some "transport",
    Disponibilite := some "semaine", Ville := none }

/-- Witness for C10 at a concrete catalog containing a NaN-expertise provider. -/
theorem domain_filter_excludes_missing_expertise_witness :
    required_keywords_for none (some "déménagement") ≠ [] ∧
    filter_by_domain_relevance [prov_missing_expertise, prov_demenageur] none
      (some "déménagement") ≠ [] ∧
    prov_demenageur ∈ select_candidates [prov_missing_expertise, prov_demenageur]
      true none (some "déménagement") ∧
    prov_demenageur.Domaines_Expertise ≠ none :=
  ⟨by decide, by decide, by decide,
    domain_filter_excludes_missing_expertise.2
      [prov_missing_expertise, prov_demenageur] none (some "déménagement")
      prov_demenageur (by decide) (by decide) (by decide) (by decide)⟩

/-- A provider whose Disponibilite cell is missing (NaN). -/
def prov_nan_dispo : Provider :=
  { Nom_Entreprise := "X", Domaines_Expertise := some "plomberie",
    Disponibilite := none, Ville := none }

/-- Claim C9, failing input: a well-formed request deduced IMMEDIATE (so the
availability constraint is "24/7") over a provider with a missing availability
string makes `find_matches` raise an AttributeError from
`is_compatible_disponibilite`, contradicting the requirement that only
programmer errors escape; the invalid-impact_geo ValueError of
`calculate_geo_score`, by contrast, does fail fast as required. -/
theorem find_matches_nan_disponibilite_raises :
    find_matches (fun _ => 1/2) (fun _ _ _ => .ok 1) [prov_nan_dispo] false true
        none none none "24/7" "IMMEDIATE" 1 5 (3/10)
      = .error "AttributeError: float object has no attribute lower" ∧
    calculate_geo_score (fun _ _ => none) (some "Paris") "Lyon" 3
      = .error "ValueError: impact_geo doit etre 0, 1 ou 2" :=
  ⟨rfl, rfl⟩

/-- Claim C4, as amended: whenever required keywords were derived, a provider
is kept by the domain filter iff its expertise cell is present, contains no
forbidden substring, and contains at least K distinct required keywords — where
K = 2 exactly when the normalized sub-category contains one of the EIGHT
prefixes "location", "logement", "colocation", "scolarite", "ecole", "pret",
"credit", "banque" (the list in the claim omits "ecole"), and K = 1 otherwise. -/
theorem domain_filter_pass_characterization :
    (∀ (providers : List Provider) (categorie sous_categorie : Option String)
        (p : Provider),
      required_keywords_for categorie sous_categorie ≠ [] →
      (p ∈ filter_by_domain_relevance providers categorie sous_categorie ↔
        p ∈ providers ∧
          is_domain_compatible (required_keywords_for categorie sous_categorie)
            (exclusions_for sous_categorie) (min_keyword_matches sous_categorie)
            p.Domaines_Expertise = true)) ∧
    (∀ sous_categorie : Option String,
      min_keyword_matches sous_categorie =
        if (["location", "logement", "colocation", "scolarite", "ecole", "pret",
            "credit", "banque"].any (fun c => strHas c (normSub sous_categorie)))
        then 2 else 1) ∧
    (∀ (keywords exclusions : List String) (minK : ℕ) (d : String),
      is_domain_compatible keywords exclusions minK (some d) = true ↔
        (exclusions.all (fun e => !(strHas e (pyLower d))) = true ∧
          minK ≤ (keywords.filter (fun k => strHas k (pyLower d))).length)) := by
  refine ⟨?_, ?_, ?_⟩
  · intro providers categorie sous_categorie p hk
    unfold filter_by_domain_relevance
    rw [if_neg (by simp [List.isEmpty_iff, hk])]
    exact List.mem_filter
  · intro sous_categorie
    rfl
  · intro keywords exclusions minK d
    unfold is_domain_compatible
    by_cases hany : exclusions.any (fun e => strHas e (pyLower d)) = true
    · simp only [hany, if_true]
      constructor
      · intro hfalse
        exact absurd hfalse (by simp)
      · rintro ⟨hall, -⟩
        rcases List.any_eq_true.mp hany with ⟨e, he, hse⟩
        have := List.all_eq_true.mp hall e he
        rw [hse] at this
        exact absurd this (by simp)
    · have hany' : exclusions.any (fun e => strHas e (pyLower d)) = false :=
        Bool.eq_false_iff.mpr hany
      simp only [hany', Bool.false_eq_true, if_false, decide_eq_true_eq]
      constructor
      · intro hcount
        refine ⟨?_, hcount⟩
        rw [List.all_eq_true]
        intro e he
        have := List.any_eq_false.mp hany' e he
        simp [this]
      · rintro ⟨-, hcount⟩
        exact hcount

/-- A school-oriented provider for the strict-categories counterexample. -/
def prov_ecole : Provider :=
  { Nom_Entreprise := "E", Domaines_Expertise := some "école maternelle",
    Disponibilite := some "semaine", Ville := none }

/-- Claim C4, counterexample: for the sub-category "école" the code demands
K = 2 (its STRICT_CATEGORIES list contains "ecole"), none of the seven prefixes
the claim lists occurs, and a provider satisfying the K = 1 condition of the claim
(no forbidden substring, one required keyword) is nevertheless filtered out. -/
theorem strict_categories_counterexample :
    filter_by_domain_relevance [prov_ecole] none (some "école") = [] ∧
    min_keyword_matches (some "école") = 2 ∧
    (["location", "logement", "colocation", "scolarite", "pret", "credit",
      "banque"].any (fun c => strHas c (normSub (some "école")))) = false ∧
    is_domain_compatible (required_keywords_for none (some "école"))
      (exclusions_for (some "école")) 1 prov_ecole.Domaines_Expertise = true :=
  ⟨by decide, by decide, by decide, by decide⟩

/-- Witness for the amended C4 theorem at a concrete sub-category and provider. -/
theorem domain_filter_pass_characterization_witness :
    required_keywords_for none (some "déménagement") ≠ [] ∧
    (prov_demenageur ∈ filter_by_domain_relevance [prov_demenageur] none
        (some "déménagement") ↔
      prov_demenageur ∈ [prov_demenageur] ∧
        is_domain_compatible (required_keywords_for none (some "déménagement"))
          (exclusions_for (some "déménagement"))
          (min_keyword_matches (some "déménagement"))
          prov_demenageur.Domaines_Expertise = true) :=
  ⟨by decide,
    domain_filter_pass_characterization.1 [prov_demenageur] none
      (some "déménagement") prov_demenageur (by decide)⟩

/-- Provenance invariant for the score columns of an intermediate row: the base
column is some cosine value, a present geo column is either the 1.0 default or
an oracle value, a present urgency column is one of the two factors, and the
specialization column is one of the four factors. -/
def ColumnsOK (sim : Provider → ℚ)
    (geo : String → Option String → ℕ → Except String ℚ) (r : MatchRow) : Prop :=
  (∃ p, r.similarity_score_base = sim p) ∧
  (∀ g, r.geo_score = some g → (g = 1 ∨ ∃ a b i, geo a b i = .ok g)) ∧
  (∀ u, r.urgency_boost = some u → (u = 1 ∨ u = 23/20)) ∧
  (r.specialization_factor = 17/20 ∨ r.specialization_factor = 9/10 ∨
    r.specialization_factor = 19/20 ∨ r.specialization_factor = 1)

theorem filterE_subset {α : Type} {f : α → Except String Bool} :
    ∀ {l l' : List α}, filterE f l = .ok l' → ∀ r ∈ l', r ∈ l := by
  intro l
  induction l with
  | nil =>
      intro l' h r hr
      cases Except.ok.inj h
      cases hr
  | cons a t ih =>
      intro l' h r hr
      unfold filterE at h
      rcases hfa : f a with e | b
      · rw [hfa] at h
        cases h
      · rw [hfa] at h
        simp only [] at h
        rcases hft : filterE f t with e | rest
        · rw [hft] at h
          cases h
        · rw [hft] at h
          simp only [] at h
          cases Except.ok.inj h
          cases b with
          | true =>
              rcases List.mem_cons.mp hr with rfl | hr
              · exact List.mem_cons_self _ _
              · exact List.mem_cons_of_mem _ (ih hft r hr)
          | false => exact List.mem_cons_of_mem _ (ih hft r hr)

theorem mapE_image {α β : Type} {f : α → Except String β} :
    ∀ {l : List α} {l' : List β}, mapE f l = .ok l' →
      ∀ y ∈ l', ∃ x ∈ l, f x = .ok y := by
  intro l
  induction l with
  | nil =>
      intro l' h y hy
      cases Except.ok.inj h
      cases hy
  | cons a t ih =>
      intro l' h y hy
      unfold mapE at h
      rcases hfa : f a with e | b
      · rw [hfa] at h
        cases h
      · rw [hfa] at h
        simp only [] at h
        rcases hft : mapE f t with e | rest
        · rw [hft] at h
          cases h
        · rw [hft] at h
          simp only [] at h
          cases Except.ok.inj h
          rcases List.mem_cons.mp hy with rfl | hy
          · exact ⟨a, List.mem_cons_self _ _, hfa⟩
          · rcases ih hft y hy with ⟨x, hx, hfx⟩
            exact ⟨x, List.mem_cons_of_mem _ hx, hfx⟩

theorem apply_ner_filtering_subset {contrainte : String} {l l' : List MatchRow}
    (h : apply_ner_filtering contrainte l = .ok l') : ∀ r ∈ l', r ∈ l := by
  unfold apply_ner_filtering at h
  split at h
  · exact filterE_subset h
  · cases Except.ok.inj h
    exact fun r hr => hr

theorem calc_urgency_boost_cases (dispo : Option String) :
    calc_urgency_boost dispo = 1 ∨ calc_urgency_boost dispo = 23/20 := by
  cases dispo with
  | none => exact Or.inl rfl
  | some d =>
      by_cases h : dispo_urgence_flag d = true
      · exact Or.inr (by simp [calc_urgency_boost, h])
      · exact Or.inl (by simp [calc_urgency_boost, h])

theorem calc_specialization_penalty_cases (domaines : Option String) :
    calc_specialization_penalty domaines = 17/20 ∨
    calc_specialization_penalty domaines = 9/10 ∨
    calc_specialization_penalty domaines = 19/20 ∨
    calc_specialization_penalty domaines = 1 := by
  cases domaines with
  | none => exact Or.inr (Or.inr (Or.inl rfl))
  | some d =>
      simp only [calc_specialization_penalty]
      split_ifs <;> simp

theorem columnsOK_init (sim : Provider → ℚ)
    (geo : String → Option String → ℕ → Except String ℚ) (p : Provider) :
    ColumnsOK sim geo (init_row sim p) := by
  refine ⟨⟨p, rfl⟩, ?_, ?_, Or.inr (Or.inr (Or.inr rfl))⟩
  · intro g hg
    cases hg
  · intro u hu
    cases hu

theorem columnsOK_adaptive_scoring {sim : Provider → ℚ}
    {geo : String → Option String → ℕ → Except String ℚ}
    {ville_besoin : Option String} {impact_geo : ℕ} {l l' : List MatchRow}
    (h : apply_adaptive_scoring geo ville_besoin impact_geo l = .ok l')
    (hOK : ∀ r ∈ l, ColumnsOK sim geo r) : ∀ r ∈ l', ColumnsOK sim geo r := by
  unfold apply_adaptive_scoring at h
  split at h
  · intro r hr
    rcases mapE_image h r hr with ⟨x, hx, hfx⟩
    rcases hg : geo (ville_besoin.getD "") x.provider.Ville impact_geo with e | g
    · rw [hg] at hfx
      cases hfx
    · rw [hg] at hfx
      simp only [] at hfx
      cases Except.ok.inj hfx
      rcases hOK x hx with ⟨⟨p, hbase⟩, -, hurg, hspec⟩
      refine ⟨⟨p, hbase⟩, ?_, hurg, hspec⟩
      intro g0 hg0
      cases Option.some.inj hg0
      exact Or.inr ⟨_, _, _, hg⟩
  · cases Except.ok.inj h
    intro r hr
    rcases List.mem_map.mp hr with ⟨x, hx, rfl⟩
    rcases hOK x hx with ⟨⟨p, hbase⟩, -, hurg, hspec⟩
    refine ⟨⟨p, hbase⟩, ?_, hurg, hspec⟩
    intro g0 hg0
    cases Option.some.inj hg0
    exact Or.inl rfl

theorem columnsOK_urgency_boost {sim : Provider → ℚ}
    {geo : String → Option String → ℕ → Except String ℚ}
    {urgence : String} {l : List MatchRow}
    (hOK : ∀ r ∈ l, ColumnsOK sim geo r) :
    ∀ r ∈ apply_urgency_boost urgence l, ColumnsOK sim geo r := by
  unfold apply_urgency_boost
  split
  · intro r hr
    rcases List.mem_map.mp hr with ⟨x, hx, rfl⟩
    rcases hOK x hx with ⟨⟨p, hbase⟩, hgeo, -, hspec⟩
    refine ⟨⟨p, hbase⟩, hgeo, ?_, hspec⟩
    intro u hu
    cases Option.some.inj hu
    exact calc_urgency_boost_cases _
  · exact hOK

theorem columnsOK_penalize {sim : Provider → ℚ}
    {geo : String → Option String → ℕ → Except String ℚ} {l : List MatchRow}
    (hOK : ∀ r ∈ l, ColumnsOK sim geo r) :
    ∀ r ∈ penalize_generic_providers l, ColumnsOK sim geo r := by
  intro r hr
  rcases List.mem_map.mp hr with ⟨x, hx, rfl⟩
  rcases hOK x hx with ⟨⟨p, hbase⟩, hgeo, hurg, -⟩
  exact ⟨⟨p, hbase⟩, hgeo, hurg, calc_specialization_penalty_cases _⟩

theorem columnsOK_amplify {sim : Provider → ℚ}
    {geo : String → Option String → ℕ → Except String ℚ} {l : List MatchRow}
    (hOK : ∀ r ∈ l, ColumnsOK sim geo r) :
    ∀ r ∈ amplify_score_gap l,
      ColumnsOK sim geo r ∧ 0 ≤ r.similarity_score ∧ r.similarity_score ≤ 1 := by
  intro r hr
  rcases List.mem_map.mp hr with ⟨x, hx, rfl⟩
  refine ⟨hOK x hx, le_max_left _ _, ?_⟩
  exact max_le (by norm_num) (min_le_right _ _)

theorem mem_filter_secondary_ranks {r : MatchRow} {rows : List MatchRow}
    (h : r ∈ filter_secondary_ranks rows) : r ∈ rows := by
  unfold filter_secondary_ranks at h
  cases hs : sortDesc rows with
  | nil => rw [hs] at h; cases h
  | cons top rest =>
      rw [hs] at h
      have h2 := List.mem_of_mem_filter h
      rw [← hs] at h2
      exact mem_sortDesc.mp h2

theorem mem_apply_adaptive_top_k {r : MatchRow} {k : ℕ} {rows : List MatchRow}
    (h : r ∈ apply_adaptive_top_k k rows) : r ∈ rows := by
  unfold apply_adaptive_top_k at h
  cases rows with
  | nil => cases h
  | cons top rest => exact List.take_subset _ _ h

theorem mem_add_confidence_labels_inv {r : MatchRow} {rows : List MatchRow}
    (h : r ∈ add_confidence_labels rows) :
    ∃ r0 ∈ rows,
      r = { r0 with confidence := some (get_confidence_label r0.similarity_score) } := by
  unfold add_confidence_labels at h
  rcases List.mem_map.mp h with ⟨r0, hr0, rfl⟩
  exact ⟨r0, hr0, rfl⟩

/-- Every row of the pipeline tail keeps column provenance and has its final
score clipped into the unit interval. -/
theorem pipeline_tail_columns {sim : Provider → ℚ}
    {geo : String → Option String → ℕ → Except String ℚ}
    (thr : ℚ) (k : ℕ) {rows : List MatchRow}
    (hOK : ∀ r ∈ rows, ColumnsOK sim geo r) :
    ∀ r ∈ pipeline_tail thr k rows,
      ColumnsOK sim geo r ∧ 0 ≤ r.similarity_score ∧ r.similarity_score ≤ 1 := by
  intro r hr
  unfold pipeline_tail at hr
  rcases mem_add_confidence_labels_inv hr with ⟨r0, hr0, rfl⟩
  have h1 : r0 ∈ amplify_score_gap (penalize_generic_providers rows) :=
    mem_filter_secondary_ranks
      (List.mem_of_mem_filter (mem_apply_adaptive_top_k hr0))
  have h2 := columnsOK_amplify (columnsOK_penalize hOK) r0 h1
  exact h2

/-- Column provenance and final-score clipping for every successful run. -/
theorem find_matches_columnsOK {sim : Provider → ℚ}
    {geo : String → Option String → ℕ → Except String ℚ}
    {providers : List Provider} {apply_domain_filter use_ner : Bool}
    {categorie sous_categorie ville_besoin : Option String}
    {contrainte_dispo urgence : String} {impact_geo top_k : ℕ} {threshold : ℚ}
    {rows : List MatchRow}
    (h : find_matches sim geo providers apply_domain_filter use_ner categorie
      sous_categorie ville_besoin contrainte_dispo urgence impact_geo top_k threshold
      = .ok rows) :
    ∀ r ∈ rows, ColumnsOK sim geo r ∧
      0 ≤ r.similarity_score ∧ r.similarity_score ≤ 1 := by
  simp only [find_matches] at h
  have hOK0 : ∀ r ∈ (select_candidates providers apply_domain_filter categorie
      sous_categorie).map (init_row sim), ColumnsOK sim geo r := by
    intro r hr
    rcases List.mem_map.mp hr with ⟨p, -, rfl⟩
    exact columnsOK_init sim geo p
  rcases hx : (if use_ner then
      apply_ner_filtering contrainte_dispo
        ((select_candidates providers apply_domain_filter categorie
          sous_categorie).map (init_row sim))
    else .ok ((select_candidates providers apply_domain_filter categorie
          sous_categorie).map (init_row sim))) with e | rows1
  · rw [hx] at h
    exact absurd h (by simp)
  · rw [hx] at h
    simp only [] at h
    have hOK1 : ∀ r ∈ rows1, ColumnsOK sim geo r := by
      split at hx
      · exact fun r hr => hOK0 r (apply_ner_filtering_subset hx r hr)
      · cases Except.ok.inj hx
        exact hOK0
    rcases hy : (if use_ner then apply_adaptive_scoring geo ville_besoin impact_geo rows1
        else .ok rows1) with e | rows2
    · rw [hy] at h
      exact absurd h (by simp)
    · rw [hy] at h
      simp only [] at h
      have hOK2 : ∀ r ∈ rows2, ColumnsOK sim geo r := by
        split at hy
        · exact columnsOK_adaptive_scoring hy hOK1
        · cases Except.ok.inj hy
          exact hOK1
      have hOK3 : ∀ r ∈ (if use_ner then apply_urgency_boost urgence rows2 else rows2),
          ColumnsOK sim geo r := by
        split
        · exact columnsOK_urgency_boost hOK2
        · exact hOK2
      cases Except.ok.inj h
      exact pipeline_tail_columns _ _ hOK3

/-- Claim C8, as amended: in every successful run, each returned row has its
final amplified score in [0, 1] and its specialization factor in [0.85, 1]; a
present urgency factor lies in [1, 1.15] (so NOT in [0, 1], contrary to the
claim); the base cosine column lies in [0, 1] whenever the cosine oracle does;
and a present geo column lies in [0, 1] whenever the values of the geo oracle do. -/
theorem find_matches_score_columns (sim : Provider → ℚ)
    (geo : String → Option String → ℕ → Except String ℚ)
    (providers : List Provider) (apply_domain_filter use_ner : Bool)
    (categorie sous_categorie ville_besoin : Option String)
    (contrainte_dispo urgence : String) (impact_geo top_k : ℕ) (threshold : ℚ)
    (rows : List MatchRow)
    (h : find_matches sim geo providers apply_domain_filter use_ner categorie
      sous_categorie ville_besoin contrainte_dispo urgence impact_geo top_k threshold
      = .ok rows) :
    (∀ r ∈ rows,
      (0 ≤ r.similarity_score ∧ r.similarity_score ≤ 1) ∧
      (17/20 ≤ r.specialization_factor ∧ r.specialization_factor ≤ 1) ∧
      (∀ u, r.urgency_boost = some u → 1 ≤ u ∧ u ≤ 23/20)) ∧
    ((∀ p, 0 ≤ sim p ∧ sim p ≤ 1) →
      ∀ r ∈ rows, 0 ≤ r.similarity_score_base ∧ r.similarity_score_base ≤ 1) ∧
    ((∀ a b i g, geo a b i = .ok g → 0 ≤ g ∧ g ≤ 1) →
      ∀ r ∈ rows, ∀ g, r.geo_score = some g → 0 ≤ g ∧ g ≤ 1) := by
  have hall := find_matches_columnsOK h
  refine ⟨?_, ?_, ?_⟩
  · intro r hr
    rcases hall r hr with ⟨⟨-, -, hurg, hspec⟩, hs0, hs1⟩
    refine ⟨⟨hs0, hs1⟩, ?_, ?_⟩
    · rcases hspec with hsf | hsf | hsf | hsf <;> rw [hsf] <;> norm_num
    · intro u hu
      rcases hurg u hu with rfl | rfl <;> norm_num
  · intro hsim r hr
    rcases hall r hr with ⟨⟨⟨p, hbase⟩, -, -, -⟩, -, -⟩
    rw [hbase]
    exact hsim p
  · intro hgeo r hr g hg
    rcases hall r hr with ⟨⟨-, hgeoc, -, -⟩, -, -⟩
    rcases hgeoc g hg with rfl | ⟨a, b, i, hok⟩
    · norm_num
    · exact hgeo a b i g hok

/-- A 24/7 emergency provider receiving the urgency boost. -/
def prov_urgence : Provider :=
  { Nom_Entreprise := "U", Domaines_Expertise := some "plomberie",
    Disponibilite := some "24/7 urgence", Ville := none }

/-- Claim C8, counterexample: an IMMEDIATE request over a 24/7 provider returns
a row whose urgency-boost column holds 1.15, which is outside [0, 1]. -/
theorem urgency_boost_column_counterexample :
    urgencies_of (find_matches (fun _ => 8/10) (fun _ _ _ => .ok 0) [prov_urgence]
        false true none none none "24/7" "IMMEDIATE" 1 5 (3/10))
      = [some (23/20)] ∧
    ¬ ((23/20 : ℚ) ≤ 1) := by
  constructor
  · have h1 : nb_domaines "plomberie" = 1 := by decide
    have h2 : dispo_urgence_flag "24/7 urgence" = true := by decide
    have h3 : is_compatible_disponibilite (some "24/7 urgence") "24/7" = .ok true := by
      rfl
    have h4 : ("24/7" : String) ≠ "ALL" := by decide
    norm_num [urgencies_of, find_matches, select_candidates, init_row,
      apply_ner_filtering, h4, filterE, h3, apply_adaptive_scoring, truthyStr,
      apply_urgency_boost, calc_urgency_boost, h2, pipeline_tail,
      penalize_generic_providers, calc_specialization_penalty, h1,
      amplify_score_gap, amplify_score, filter_secondary_ranks, sortDesc,
      insertDesc, threshold_filter, apply_adaptive_top_k, add_confidence_labels,
      get_confidence_label, List.filter_cons, prov_urgence]
  · norm_num

/-- Witness for the amended C8 theorem at a concrete successful run. -/
theorem find_matches_score_columns_witness :
    (0 ≤ wit_row.similarity_score ∧ wit_row.similarity_score ≤ 1) ∧
    (0 ≤ wit_row.similarity_score_base ∧ wit_row.similarity_score_base ≤ 1) := by
  have hrun : find_matches (fun _ => 1/2) (fun _ _ _ => .ok 1) [prov_expert_C]
      false false none none none "ALL" "STANDARD" 1 5 (3/10) = .ok [wit_row] := by
    have h1 : nb_domaines "expert" = 1 := by decide
    norm_num [find_matches, select_candidates, init_row, pipeline_tail,
      penalize_generic_providers, calc_specialization_penalty, h1,
      amplify_score_gap, amplify_score, filter_secondary_ranks, sortDesc,
      insertDesc, threshold_filter, apply_adaptive_top_k, add_confidence_labels,
      get_confidence_label, List.filter_cons, prov_expert_C, wit_row]
  have h := find_matches_score_columns (fun _ => 1/2) (fun _ _ _ => .ok 1)
    [prov_expert_C] false false none none none "ALL" "STANDARD" 1 5 (3/10)
    [wit_row] hrun
  exact ⟨(h.1 wit_row (List.mem_singleton_self _)).1,
    h.2.1 (by intro p; norm_num) wit_row (List.mem_singleton_self _)⟩

end Zeus
